import Mathlib

/-!
# Verification of the multi-agent workflow orchestration core

Shallow embedding of the repository `orchids-challenge` (backend multi-agent
pipeline).  The embedded code comes from:

* `backend/app/multi_agent/workflow/orchestrator.py` — `WorkflowOrchestrator`
  (`_create_agent_handler`, `_validation_router`, `run_workflow`,
  `_get_agent_input`, `_build_workflow_graph`);
* `backend/app/multi_agent/workflow/models.py` — `AgentState`, `WorkflowState`,
  `AgentConfig`;
* `backend/app/multi_agent/workflow/agent_factory.py` — `AgentFactory`;
* `backend/app/multi_agent/agents/base_agent.py` — `BaseAgent.__init__`;
* `backend/app/multi_agent/service.py` — `WebsiteGenerationService`
  (`_run_generation_task`, `_handle_agent_status_update`, `_notify_clients`,
  `get_task_result`).

Modelling conventions:

* Python dictionaries are association lists (`Dict`); `dset` implements
  `d[k] = v` (replace in place or append), `dupdate` implements `d.update(d2)`.
* Python values flowing through artifact dictionaries are the inductive `Val`
  (strings, numbers, booleans, `None`, nested dicts).  Floats are abstracted
  as integers: the orchestration core only copies and truth-tests scores,
  never does float arithmetic.
* Wall-clock timestamps (`time.time()`) are abstracted as a natural-number
  step counter threaded through the traversal; nothing in the verified
  properties depends on time values.
* A stage's `process_sync` is an external collaborator: a run is parameterised
  by an oracle `String → Nat → Except String Dict` giving, per agent id and
  per attempt number, either the produced artifact (`.ok`) or a raised
  exception's message (`.error`).
* `langgraph` traversal: nodes are executed in sequence following the linear
  edges; the conditional edge after `validation_6` applies `_validation_router`
  to pick the next node.  A conditional-edge path function receives a
  throwaway copy of the state assembled from the channels, so its in-place
  mutations (the router assigns `state["status"] = ...`) are discarded — only
  the returned label is used; state is updated by nodes alone.  An exception
  raised by a node handler propagates out of `invoke` (conditional edges do
  not catch exceptions).  The compiled graph's recursion limit (25 super-steps
  in langgraph v0.3.x) is modelled as fuel.  Python's in-place
  mutation of the state dict threaded through the graph is modelled by the
  error case of the traversal carrying the state as mutated up to the raise;
  every field inspected by the theorems below (`status`, `errors`, `agents`,
  `results`) lives in structures that the real code shares by reference, so
  this matches the observable behaviour of `run_workflow`'s exception branch.
-/

/-- A Python value as it appears in the artifact / kwargs dictionaries of the
pipeline.  Numeric values are abstracted as integers (the orchestration core
never computes with them, it only copies and truth-tests them). -/
inductive Val where
  | vStr : String → Val
  | vNum : Int → Val
  | vBool : Bool → Val
  | vNone : Val
  | vDict : List (String × Val) → Val

/-- A Python `dict` with string keys, as an association list. -/
abbrev Dict := List (String × Val)

/-- Python dict lookup `d.get(k)`. -/
def dget (d : Dict) (k : String) : Option Val :=
  match d with
  | [] => none
  | (k', v) :: rest => if k = k' then some v else dget rest k

/-- Python dict lookup with default, `d.get(k, dflt)`. -/
def dgetD (d : Dict) (k : String) (dflt : Val) : Val :=
  (dget d k).getD dflt

/-- Python dict assignment `d[k] = v`: replace the binding in place if the key
is present, otherwise append it. -/
def dset (d : Dict) (k : String) (v : Val) : Dict :=
  match d with
  | [] => [(k, v)]
  | (k', v') :: rest => if k = k' then (k', v) :: rest else (k', v') :: dset rest k v

/-- Python `d.update(d2)`: fold every binding of `d2` into `d`. -/
def dupdate (d : Dict) (d2 : Dict) : Dict :=
  d2.foldl (fun acc kv => dset acc kv.1 kv.2) d

/-- Python truthiness of a `Val` (`if not x`, `if x`). -/
def truthy : Val → Bool
  | .vStr s => !(s == "")
  | .vNum n => !(n == 0)
  | .vBool b => b
  | .vNone => false
  | .vDict d => !d.isEmpty

/-- `models.AgentState` (TypedDict): per-run, per-agent execution record.
In every state built by the orchestrator the `retry_count` key is populated,
so it is a total field here. -/
structure AgentState where
  agent_id : String
  name : String
  status : String
  start_time : Option Nat := none
  end_time : Option Nat := none
  result : Option Dict := none
  error : Option String := none
  retry_count : Nat := 0

/-- One entry of `WorkflowState.errors`
(`{"agent_id": ..., "agent_name": ..., "error": ..., "time": ...}`). -/
structure ErrEntry where
  agent_id : String
  agent_name : String
  error : String
  time : Nat

/-- `models.WorkflowState` (TypedDict): the run's aggregate state. -/
structure WorkflowState where
  url : String
  current_agent_id : Option String := none
  agents : List (String × AgentState) := []
  results : List (String × Dict) := []
  errors : List ErrEntry := []
  quality_score : Val := .vNum 0
  status : String := "pending"
  output_path : Option Val := none

/-- Lookup in the `agents` mapping of a workflow state. -/
def aget (m : List (String × AgentState)) (k : String) : Option AgentState :=
  match m with
  | [] => none
  | (k', v) :: rest => if k = k' then some v else aget rest k

/-- Assignment `state["agents"][k] = v`. -/
def aset (m : List (String × AgentState)) (k : String) (v : AgentState) :
    List (String × AgentState) :=
  match m with
  | [] => [(k, v)]
  | (k', v') :: rest => if k = k' then (k', v) :: rest else (k', v') :: aset rest k v

/-- Lookup in the `results` mapping of a workflow state. -/
def rget (m : List (String × Dict)) (k : String) : Option Dict :=
  match m with
  | [] => none
  | (k', v) :: rest => if k = k' then some v else rget rest k

/-- Assignment `state["results"][k] = v`. -/
def rset (m : List (String × Dict)) (k : String) (v : Dict) :
    List (String × Dict) :=
  match m with
  | [] => [(k, v)]
  | (k', v') :: rest => if k = k' then (k', v) :: rest else (k', v') :: rset rest k v

/-! ## Orchestrator: stage handler, router, graph traversal

From `workflow/orchestrator.py`.  The six agents built by
`AgentFactory.create_agents_from_config` on the default configuration get ids
`scraper_1`, `semantic_parser_2`, `style_transfer_3`, `layout_generator_4`,
`component_synthesizer_5`, `validation_6` (type plus 1-based position), which
are exactly the ids the orchestrator's graph construction and routing key on.
-/

/-- Lifecycle events emitted through the orchestrator's `status_callback`. -/
inductive Ev where
  | agent_started : String → Ev
  | agent_completed : String → Ev
  | agent_failed : String → Ev
  | workflow_completed : Ev
  | workflow_failed : Ev
deriving DecidableEq, Repr

/-- A trace entry: the emitted event together with the workflow state passed to
the status callback at emission. -/
abbrev TEv := Ev × WorkflowState

/-- `agent.id` of each stage: `BaseAgent.__init__` defaults `id` to the class
name, and the factory never passes an `id` keyword. -/
def agentDisplayName : String → String
  | "scraper_1" => "ScraperAgent"
  | "semantic_parser_2" => "SemanticParserAgent"
  | "style_transfer_3" => "StyleTransferAgent"
  | "layout_generator_4" => "LayoutGeneratorAgent"
  | "component_synthesizer_5" => "ComponentSynthesizerAgent"
  | "validation_6" => "ValidationAgent"
  | other => other

/-- Number of times agent `aid` has been entered so far in state `s`
(`retry_count` is `entries - 1` for an agent that has been entered). -/
def cEntries (s : WorkflowState) (aid : String) : Nat :=
  match aget s.agents aid with
  | none => 0
  | some a => a.retry_count + 1

/-- The per-agent record created or updated at the top of the stage handler
(`_create_agent_handler`, entry bookkeeping): first entry gets
`status=running, retry_count=0`; a re-entry refreshes `start_time` and
increments `retry_count`. -/
def entryAgent (aid nm : String) (t : Nat) (s : WorkflowState) : AgentState :=
  match aget s.agents aid with
  | none =>
      { agent_id := aid, name := nm, status := "running", start_time := some t,
        end_time := none, result := none, error := none, retry_count := 0 }
  | some a =>
      { a with status := "running", start_time := some t,
               retry_count := a.retry_count + 1 }

/-- State right after the entry bookkeeping of the handler (the state passed to
the `agent_started` callback). -/
def startedState (aid nm : String) (t : Nat) (s : WorkflowState) : WorkflowState :=
  { s with current_agent_id := some aid,
           agents := aset s.agents aid (entryAgent aid nm t s) }

/-- State produced by the success branch of the stage handler: record the
result on the agent record, mirror it into `results`, and apply the
agent-specific updates (`quality_score` for `validation_6`, `output_path` for
`component_synthesizer_5`, and `status = completed` when the gate reports a
truthy `passed`).  The handler's sequential assignments each touch a distinct
field of the state, so they are written here as one record, field by field
(the agent record is written once with its final value instead of the
entry-bookkeeping value followed by the completion value). -/
def okState (aid nm : String) (d : Dict) (t : Nat) (s : WorkflowState) : WorkflowState :=
  { url := s.url,
    current_agent_id := some aid,
    agents := aset s.agents aid
      { entryAgent aid nm t s with
        status := "completed", end_time := some t, result := some d },
    results := rset s.results aid d,
    errors := s.errors,
    quality_score :=
      if aid = "validation_6" then dgetD d "quality_score" (.vNum 1)
      else s.quality_score,
    status :=
      if aid = "validation_6" ∧ truthy (dgetD d "passed" (.vBool false)) = true then
        "completed"
      else s.status,
    output_path :=
      if aid = "component_synthesizer_5" then
        some (dgetD d "output_path" (s.output_path.getD (.vStr "generated")))
      else s.output_path }

/-- State produced by the failure branch of the stage handler: record the
error on the agent, append a workflow-level error entry, and force
`status = failed` when the entry `retry_count` has reached 3 (a literal in
the source).  The handler then re-raises the exception.  Written field by
field like `okState`. -/
def errState (aid nm msg : String) (t : Nat) (s : WorkflowState) : WorkflowState :=
  { url := s.url,
    current_agent_id := some aid,
    agents := aset s.agents aid
      { entryAgent aid nm t s with
        status := "failed", end_time := some t, error := some msg },
    results := s.results,
    errors := s.errors ++
      [{ agent_id := aid, agent_name := nm, error := msg, time := t }],
    quality_score := s.quality_score,
    status :=
      if 3 ≤ (entryAgent aid nm t s).retry_count then "failed" else s.status,
    output_path := s.output_path }

/-- The node handler produced by `_create_agent_handler`, as a function of the
collaborator's outcome.  The returned trace lists the status-callback events in
emission order; a failure is re-raised (`.error`), carrying the state as
mutated so far (the Python code mutates the shared state dict in place). -/
def agentHandler (aid nm : String) (outcome : Except String Dict) (t : Nat)
    (s : WorkflowState) : List TEv × Except (String × WorkflowState) WorkflowState :=
  match outcome with
  | .ok d =>
      ([(.agent_started aid, startedState aid nm t s),
        (.agent_completed aid, okState aid nm d t s)],
       .ok (okState aid nm d t s))
  | .error msg =>
      ([(.agent_started aid, startedState aid nm t s),
        (.agent_failed aid, errState aid nm msg t s)],
       .error (msg, errState aid nm msg t s))

/-- `_validation_router` as a function: the edge label together with the
state as the function body mutates it (`state["status"]` assignments).  In
the graph the router runs on a throwaway copy, so the traversal consumes only
the label; the `.error` case models the `KeyError` raised when the router
reads `state["agents"]["component_synthesizer_5"]` and the key is absent. -/
def validationRouter (s : WorkflowState) :
    Except (String × WorkflowState) (String × WorkflowState) :=
  match aget s.agents "validation_6" with
  | none => .ok ("success", { s with status := "failed" })
  | some vr =>
    if vr.status = "failed" then
      if vr.retry_count < 3 then .ok ("retry", s)
      else .ok ("success", { s with status := "failed" })
    else
      match vr.result with
      | some res =>
        if truthy (dgetD res "passed" (.vBool false)) = true then
          .ok ("success", { s with status := "completed" })
        else
          match aget s.agents "component_synthesizer_5" with
          | none => .error ("KeyError: component_synthesizer_5", s)
          | some cs =>
            if cs.retry_count < 3 then .ok ("retry", s)
            else .ok ("success", { s with status := "failed" })
      | none => .ok ("success", s)

/-- The linear edges of `_build_workflow_graph` (consecutive pairs in
configuration order). -/
def nextLinear : String → Option String
  | "scraper_1" => some "semantic_parser_2"
  | "semantic_parser_2" => some "style_transfer_3"
  | "style_transfer_3" => some "layout_generator_4"
  | "layout_generator_4" => some "component_synthesizer_5"
  | "component_synthesizer_5" => some "validation_6"
  | _ => none

/-- Graph traversal of the compiled graph: execute the node handler, then
follow the conditional edge after `validation_6` (label `success` goes to the
`end` node, `retry` goes back to `component_synthesizer_5`) or the linear edge
otherwise.  The router runs on a throwaway copy of the state, so only its
label is consumed: the traversal continues with the node handler's state
`s1`, and the router's `status` mutation is discarded (matching langgraph's
conditional-edge semantics).  A handler exception aborts the traversal.
`fuel` models the recursion limit of `langgraph`'s `invoke` (default 25
super-steps). -/
def runGraph (oracle : String → Nat → Except String Dict) :
    Nat → String → Nat → WorkflowState →
    List TEv × Except (String × WorkflowState) WorkflowState
  | 0, _, _, s => ([], .error ("GraphRecursionError", s))
  | fuel + 1, node, t, s =>
    if node = "end" then
      ([(if s.status = "completed" then Ev.workflow_completed else Ev.workflow_failed, s)],
       .ok s)
    else
      match agentHandler node (agentDisplayName node) (oracle node (cEntries s node)) t s with
      | (evs, .error e) => (evs, .error e)
      | (evs, .ok s1) =>
        if node = "validation_6" then
          match validationRouter s1 with
          | .error e => (evs, .error e)
          | .ok (label, _) =>
            let r2 := runGraph oracle fuel
                        (if label = "retry" then "component_synthesizer_5" else "end")
                        (t + 1) s1
            (evs ++ r2.1, r2.2)
        else
          match nextLinear node with
          | some nxt =>
            let r2 := runGraph oracle fuel nxt (t + 1) s1
            (evs ++ r2.1, r2.2)
          | none => (evs, .ok s1)

/-- The fresh workflow state allocated at the top of `run_workflow` (the
run-scoped output directory is passed in as `runDir`). -/
def initialState (runDir url : String) : WorkflowState :=
  { url := url, status := "running", output_path := some (.vStr runDir),
    current_agent_id := none, agents := [], results := [], errors := [],
    quality_score := .vNum 0 }

/-- `WorkflowOrchestrator.run_workflow`: invoke the compiled graph from the
entry point `scraper_1`; on normal completion derive a still-`running` status
from the per-agent statuses; on an escaping exception force `status=failed`
and append a synthetic orchestrator-level error.  Also returns the emission
trace of the status callback. -/
def run_workflow (oracle : String → Nat → Except String Dict)
    (runDir url : String) : List TEv × WorkflowState :=
  match runGraph oracle 25 "scraper_1" 0 (initialState runDir url) with
  | (evs, .ok final) =>
    (evs,
      if final.status = "running" then
        if final.agents.any (fun p => p.2.status = "failed") then
          { final with status := "failed" }
        else
          { final with status := "completed" }
      else final)
  | (evs, .error (msg, sr)) =>
    (evs,
      { sr with status := "failed",
                errors := sr.errors ++
                  [{ agent_id := "orchestrator", agent_name := "Orchestrator",
                     error := msg, time := 0 }] })

/-- Number of `agent_started` events for the synthesis stage in a trace: the
number of times the `component_synthesizer_5` node was entered. -/
def synStartedCount (tr : List TEv) : Nat :=
  tr.countP (fun p => p.1 == Ev.agent_started "component_synthesizer_5")

/-! ## `_get_agent_input` -/

/-- `if dep in state["results"]: input_data.update(state["results"][dep])`. -/
def updIf (acc : Dict) (r : List (String × Dict)) (dep : String) : Dict :=
  match rget r dep with
  | some art => dupdate acc art
  | none => acc

/-- `WorkflowOrchestrator._get_agent_input`: base input `{"url": ...}`, the
per-stage upstream artifacts merged in source order, and `output_path` for the
synthesizer and validation stages when the state has one. -/
def getAgentInput (aid : String) (s : WorkflowState) : Dict :=
  let input := [("url", Val.vStr s.url)]
  let input :=
    if aid = "semantic_parser_2" then
      updIf input s.results "scraper_1"
    else if aid = "style_transfer_3" then
      updIf (updIf input s.results "scraper_1") s.results "semantic_parser_2"
    else if aid = "layout_generator_4" then
      updIf (updIf input s.results "semantic_parser_2") s.results "style_transfer_3"
    else if aid = "component_synthesizer_5" then
      ["scraper_1", "semantic_parser_2", "style_transfer_3",
       "layout_generator_4"].foldl (fun acc dep => updIf acc s.results dep) input
    else if aid = "validation_6" then
      updIf input s.results "component_synthesizer_5"
    else input
  if aid = "component_synthesizer_5" ∨ aid = "validation_6" then
    match s.output_path with
    | some v => dset input "output_path" v
    | none => input
  else input

/-- The static per-stage upstream dependency lists, as the specification
states them (scraper for the parser; scraper and parser for style; parser and
style for layout; all four producers for the synthesizer; the synthesizer for
the quality gate). -/
def specDeps : String → List String
  | "semantic_parser_2" => ["scraper_1"]
  | "style_transfer_3" => ["scraper_1", "semantic_parser_2"]
  | "layout_generator_4" => ["semantic_parser_2", "style_transfer_3"]
  | "component_synthesizer_5" =>
      ["scraper_1", "semantic_parser_2", "style_transfer_3", "layout_generator_4"]
  | "validation_6" => ["component_synthesizer_5"]
  | _ => []

/-- Stage input as described by the specification: the run's `url`, the union
of the artifacts recorded in `results` for the stage's declared upstream
dependencies, plus `output_path` for the synthesizer and quality-gate stages
only. -/
def specStageInput (aid : String) (s : WorkflowState) : Dict :=
  let base := [("url", Val.vStr s.url)]
  let withDeps := (specDeps aid).foldl
    (fun acc dep =>
      match rget s.results dep with
      | some art => dupdate acc art
      | none => acc) base
  if aid = "component_synthesizer_5" ∨ aid = "validation_6" then
    match s.output_path with
    | some v => dset withDeps "output_path" v
    | none => withDeps
  else withDeps

/-! ## Factory and `BaseAgent` construction (retry-budget plumbing) -/

/-- `models.AgentConfig` (pydantic): declarative stage configuration. -/
structure AgentConfig where
  agent_type : String
  name : String
  debug : Bool := false
  max_retries : Nat := 3
  timeout : Nat := 60
  config : Dict := []

/-- The attributes `BaseAgent.__init__` reads from its keyword arguments. -/
structure BaseAgent where
  debug : Val
  timeout : Val
  max_retries : Val
  id : Val

/-- `BaseAgent.__init__(**kwargs)`: each attribute is read from `kwargs` with
its default (`max_retries` defaults to 3, `id` to the class name). -/
def baseAgentInit (className : String) (kwargs : Dict) : BaseAgent :=
  { debug := dgetD kwargs "debug" (.vBool false),
    timeout := dgetD kwargs "timeout" (.vNum 60),
    max_retries := dgetD kwargs "max_retries" (.vNum 3),
    id := dgetD kwargs "id" (.vStr className) }

/-- `AgentFactory._agent_classes`: agent type → class name. -/
def agentClassOf : String → Option String
  | "scraper" => some "ScraperAgent"
  | "semantic_parser" => some "SemanticParserAgent"
  | "style_transfer" => some "StyleTransferAgent"
  | "layout_generator" => some "LayoutGeneratorAgent"
  | "component_synthesizer" => some "ComponentSynthesizerAgent"
  | "validation" => some "ValidationAgent"
  | _ => none

/-- `AgentFactory.create_agent`: instantiate the agent class with keyword
arguments `name`, `debug`, `timeout`, `retry_limit=config.max_retries`, plus
the entries of `config.config`.  Note the configured `max_retries` is passed
under the keyword `retry_limit`. -/
def create_agent (cfg : AgentConfig) : Except String BaseAgent :=
  match agentClassOf cfg.agent_type with
  | none => .error ("Invalid agent type: " ++ cfg.agent_type)
  | some cls =>
    .ok (baseAgentInit cls
      (dupdate [("name", .vStr cfg.name), ("debug", .vBool cfg.debug),
                ("timeout", .vNum cfg.timeout),
                ("retry_limit", .vNum cfg.max_retries)]
        cfg.config))

/-- `AgentFactory.create_default_workflow_agents`: the six default stage
configurations (directory names, API keys and validation thresholds are
parameters resolved from kwargs / environment variables in the source).
None of them sets `max_retries`, so each gets the pydantic default 3. -/
def create_default_workflow_agents (debug : Bool)
    (output_dir screenshots_dir firecrawl_api_key openai_api_key : String)
    (perfT accT seoT bpT : Int) : List AgentConfig :=
  [{ agent_type := "scraper", name := "ScrapeWebsite", debug := debug,
     config := [("api_key", .vStr firecrawl_api_key), ("stealth_mode", .vBool true),
                ("proxy_rotation", .vBool true),
                ("screenshots_dir", .vStr screenshots_dir)] },
   { agent_type := "semantic_parser", name := "ParseStructure", debug := debug,
     config := [("analyze_text_semantics", .vBool true),
                ("analyze_component_patterns", .vBool true),
                ("analyze_heading_structure", .vBool true)] },
   { agent_type := "style_transfer", name := "GenerateDesignSystem", debug := debug,
     config := [("api_key", .vStr openai_api_key),
                ("color_extraction_mode", .vStr "pixel"),
                ("min_colors", .vNum 5), ("max_colors", .vNum 10)] },
   { agent_type := "layout_generator", name := "GenerateLayout", debug := debug,
     config := [("column_counts", .vDict [("mobile", .vNum 4), ("tablet", .vNum 8),
                  ("desktop", .vNum 12)]),
                ("breakpoints", .vDict [("mobile", .vStr "0px"),
                  ("tablet", .vStr "768px"), ("desktop", .vStr "1200px")])] },
   { agent_type := "component_synthesizer", name := "GenerateComponents", debug := debug,
     config := [("component_dir", .vStr "components"),
                ("output_dir", .vStr output_dir), ("typescript", .vBool true),
                ("react_version", .vStr "18")] },
   { agent_type := "validation", name := "ValidateWebsite", debug := debug,
     config := [("performance_threshold", .vNum perfT),
                ("accessibility_threshold", .vNum accT),
                ("seo_threshold", .vNum seoT),
                ("best_practices_threshold", .vNum bpT)] }]

/-! ## Service layer: tasks, results, subscriber notifications -/

/-- An entry of `WebsiteGenerationService.active_tasks`. -/
structure TaskRec where
  url : String
  status : String
  created_at : Nat
  result : Option Dict := none
  error : Option String := none

/-- Lookup in the `active_tasks` mapping. -/
def tget (m : List (String × TaskRec)) (k : String) : Option TaskRec :=
  match m with
  | [] => none
  | (k', v) :: rest => if k = k' then some v else tget rest k

/-- `WebsiteGenerationService.get_task_result`: `None` for an unknown id;
`None` when the status is not `"completed"` or no truthy result is stored;
otherwise the stored result. -/
def get_task_result (tasks : List (String × TaskRec)) (tid : String) : Option Dict :=
  match tget tasks tid with
  | none => none
  | some td =>
    if td.status ≠ "completed" ∨ (td.result.getD []).isEmpty = true then none
    else td.result

/-- `os.path.basename` for the forward-slash paths the service builds: the
suffix of the path after its last `/` (computed over the character list so
that it reduces inside the kernel). -/
def basename (p : String) : String :=
  String.mk (p.data.foldl (fun acc c => if c = '/' then [] else acc ++ [c]) [])

/-- A message handed to `_notify_clients`: the task id it is keyed on and its
`event` field. -/
structure Notification where
  tid : String
  event : String
deriving DecidableEq, Repr

/-- The `event` string the service callback attaches for each orchestrator
event. -/
def evName : Ev → String
  | .agent_started _ => "agent_started"
  | .agent_completed _ => "agent_completed"
  | .agent_failed _ => "agent_failed"
  | .workflow_completed => "workflow_completed"
  | .workflow_failed => "workflow_failed"

/-- `_handle_agent_status_update`: drop the event when the state has no truthy
`output_path`; otherwise key the message on `basename(output_path)`.  A
non-string `output_path` makes `os.path.basename` raise inside the
fire-and-forget callback task, so no message is sent either. -/
def evNotif (te : TEv) : Option Notification :=
  match te.2.output_path with
  | some (.vStr p) => if p = "" then none else some { tid := basename p, event := evName te.1 }
  | _ => none

/-- The sequence of `_notify_clients` calls made while `_run_generation_task`
drives one task, in emission order: `task_started` keyed on the task id, the
orchestrator's callback events keyed on `basename(output_path)`, then exactly
one of `task_completed` / `task_failed` keyed on the task id (the response
status is `"success"` exactly when the final workflow status is
`"completed"`). -/
def serviceNotifs (oracle : String → Nat → Except String Dict)
    (tsk runDir url : String) : List Notification :=
  let r := run_workflow oracle runDir url
  { tid := tsk, event := "task_started" } ::
    (r.1.filterMap evNotif ++
      [{ tid := tsk,
         event := if r.2.status = "completed" then "task_completed" else "task_failed" }])

/-- The events delivered to an observer registered for task id `tsk`
(`_notify_clients` sends a message only to the sockets registered under the
message's task id, in order). -/
def deliveredTo (tsk : String) (ns : List Notification) : List String :=
  (ns.filter (fun n => n.tid == tsk)).map (fun n => n.event)


/-! ## Concrete instances used by the per-claim witnesses and counterexamples -/

/-- Outcome oracle: every stage succeeds, but the quality gate always reports
`passed=false` (spec scenario C). -/
def c2Oracle : String → Nat → Except String Dict := fun aid _ =>
  if aid = "validation_6" then
    .ok [("passed", .vBool false), ("quality_score", .vNum 55)]
  else .ok []

/-- The synthesis-stage configuration of scenario C: `max_retries = 1`. -/
def c2SynthConfig : AgentConfig :=
  { agent_type := "component_synthesizer", name := "GenerateComponents",
    max_retries := 1,
    config := [("component_dir", .vStr "components"),
               ("output_dir", .vStr "generated"), ("typescript", .vBool true),
               ("react_version", .vStr "18")] }

/-- Outcome oracle: every stage succeeds and the gate passes. -/
def c1Oracle : String → Nat → Except String Dict := fun aid _ =>
  if aid = "validation_6" then
    .ok [("passed", .vBool true), ("quality_score", .vNum 95)]
  else .ok []

/-- Outcome oracle: every stage succeeds and the gate passes immediately. -/
def c4Oracle : String → Nat → Except String Dict := fun aid _ =>
  if aid = "validation_6" then .ok [("passed", .vBool true)] else .ok []

/-- A workflow state with recorded upstream results, for exercising
`_get_agent_input`. -/
def c8State : WorkflowState :=
  { initialState "generated/run8" "http://example.com" with
    results := [("scraper_1", [("html", .vStr "<html></html>")])] }

/-- A workflow state in which the quality gate has no recorded run state
(fresh run). -/
def c3State : WorkflowState := initialState "generated/run3" "http://example.com"

/-- A recorded gate run state with `status=failed` below the retry cutoff. -/
def c3GateAgent : AgentState :=
  { agent_id := "validation_6", name := "ValidationAgent", status := "failed",
    error := some "validator crashed", retry_count := 1 }

/-- A workflow state whose gate run state failed with `retry_count = 1`. -/
def c3RetryState : WorkflowState :=
  { initialState "generated/run3" "http://example.com" with
    agents := [("validation_6", c3GateAgent)] }

/-- Outcome oracle: the synthesis stage succeeds on its first attempt and
raises on the retry forced by a rejecting gate. -/
def c5Oracle : String → Nat → Except String Dict := fun aid n =>
  if aid = "validation_6" then
    .ok [("passed", .vBool false), ("quality_score", .vNum 40)]
  else if aid = "component_synthesizer_5" then
    (if n = 0 then
      .ok [("html_output", .vStr "<div>"), ("output_path", .vStr "generated/run5")]
     else .error "synthesis crashed")
  else .ok []

/-- Outcome oracle: the scrape stage raises on every attempt. -/
def c6Oracle : String → Nat → Except String Dict := fun aid _ =>
  if aid = "scraper_1" then .error "fetch failed" else .ok []

/-- A task map holding one failed task with a stored error result. -/
def c7Tasks : List (String × TaskRec) :=
  [("task-1",
    { url := "http://example.com", status := "failed", created_at := 0,
      result := some [("status", .vStr "error"),
                      ("message", .vStr "Website generation failed")] })]

/-- A fresh state for exercising the quality-gate handler. -/
def c9State : WorkflowState := initialState "generated/run9" "http://example.com"

/-- A gate result reporting a score and a passing validation. -/
def c9GateResult : Dict := [("quality_score", .vNum 95), ("passed", .vBool true)]

/-- A stage configuration with a non-default retry budget. -/
def c10Cfg : AgentConfig :=
  { agent_type := "component_synthesizer", name := "GenerateComponents",
    max_retries := 1 }

/-- The agent the factory builds from `c10Cfg`: attributes all default,
`max_retries = 3` despite the configured 1. -/
def c10Agent : BaseAgent :=
  { debug := .vBool false, timeout := .vNum 60, max_retries := .vNum 3,
    id := .vStr "ComponentSynthesizerAgent" }

/-- A recorded gate run state: completed, reporting `passed=false`. -/
def c10GateAgent : AgentState :=
  { agent_id := "validation_6", name := "ValidationAgent", status := "completed",
    result := some [("passed", .vBool false)], retry_count := 0 }

/-- A recorded synthesis run state on its first entry. -/
def c10SynAgent : AgentState :=
  { agent_id := "component_synthesizer_5", name := "ComponentSynthesizerAgent",
    status := "completed", retry_count := 0 }

/-- A post-gate workflow state on which the router decides a retry. -/
def c10State : WorkflowState :=
  { initialState "generated/run10" "http://example.com" with
    agents := [("validation_6", c10GateAgent),
               ("component_synthesizer_5", c10SynAgent)] }

/-! ## Run invariants and traversal preconditions (definitions) -/

/-- The `retry_count` recorded for `aid` in `s` (0 when the agent has no run
state, matching `get("retry_count", 0)` in the source). -/
def rcOf (s : WorkflowState) (aid : String) : Nat :=
  match aget s.agents aid with
  | none => 0
  | some a => a.retry_count

/-! ## The run invariant -/

/-- `status` stays within the vocabulary reachable from `running`. -/
def StatusOK (s : WorkflowState) : Prop :=
  s.status = "running" ∨ s.status = "completed" ∨ s.status = "failed"

/-- No agent is ever entered more than 4 times (`retry_count ≤ 3`). -/
def RcBound (s : WorkflowState) : Prop :=
  ∀ aid, cEntries s aid ≤ 4

/-- Every key of `results` has a per-agent run state that finished
(`completed`, or `failed` after a later retry of the same stage failed). -/
def ResultsAgents (s : WorkflowState) : Prop :=
  ∀ aid, (rget s.results aid).isSome = true →
    ∃ a, aget s.agents aid = some a ∧ (a.status = "completed" ∨ a.status = "failed")

/-- Invariant maintained by every state the traversal produces. -/
def WfInv (s : WorkflowState) : Prop :=
  StatusOK s ∧ RcBound s ∧ ResultsAgents s

/-- Node-entry precondition: which node the traversal is at, with the
book-keeping facts that hold whenever the traversal enters it. -/
inductive Pre : String → WorkflowState → Prop where
  | scr : ∀ s, WfInv s →
      aget s.agents "scraper_1" = none →
      aget s.agents "semantic_parser_2" = none →
      aget s.agents "style_transfer_3" = none →
      aget s.agents "layout_generator_4" = none →
      aget s.agents "component_synthesizer_5" = none →
      aget s.agents "validation_6" = none →
      Pre "scraper_1" s
  | par : ∀ s, WfInv s →
      aget s.agents "semantic_parser_2" = none →
      aget s.agents "style_transfer_3" = none →
      aget s.agents "layout_generator_4" = none →
      aget s.agents "component_synthesizer_5" = none →
      aget s.agents "validation_6" = none →
      Pre "semantic_parser_2" s
  | sty : ∀ s, WfInv s →
      aget s.agents "style_transfer_3" = none →
      aget s.agents "layout_generator_4" = none →
      aget s.agents "component_synthesizer_5" = none →
      aget s.agents "validation_6" = none →
      Pre "style_transfer_3" s
  | lay : ∀ s, WfInv s →
      aget s.agents "layout_generator_4" = none →
      aget s.agents "component_synthesizer_5" = none →
      aget s.agents "validation_6" = none →
      Pre "layout_generator_4" s
  | syn : ∀ s, WfInv s →
      cEntries s "component_synthesizer_5" = cEntries s "validation_6" →
      cEntries s "component_synthesizer_5" ≤ 3 →
      Pre "component_synthesizer_5" s
  | val : ∀ s, WfInv s →
      cEntries s "validation_6" + 1 = cEntries s "component_synthesizer_5" →
      cEntries s "component_synthesizer_5" ≤ 4 →
      Pre "validation_6" s
  | fin : ∀ s, WfInv s → Pre "end" s

/-- The invariant, read off a traversal result (normal or exceptional). -/
def InvRes : Except (String × WorkflowState) WorkflowState → Prop
  | .ok s => WfInv s
  | .error e => WfInv e.2

/-! ## Lemmas about the mapping primitives -/

theorem aget_aset_self (m : List (String × AgentState)) (k : String) (v : AgentState) :
    aget (aset m k v) k = some v := by
  induction m with
  | nil => simp [aset, aget]
  | cons kv rest ih =>
    by_cases h : k = kv.1
    · simp [aset, aget, h]
    · simp [aset, aget, h, ih]

theorem aget_aset_ne (m : List (String × AgentState)) (k k2 : String) (v : AgentState)
    (h : k2 ≠ k) : aget (aset m k v) k2 = aget m k2 := by
  induction m with
  | nil => simp [aset, aget, h]
  | cons kv rest ih =>
    by_cases h1 : k = kv.1
    · by_cases h2 : k2 = kv.1
      · exact absurd (h2.trans h1.symm) h
      · simp [aset, aget, h1, h2]
    · by_cases h2 : k2 = kv.1
      · simp [aset, aget, h1, h2]
      · simp [aset, aget, h1, h2, ih]

theorem rget_rset_self (m : List (String × Dict)) (k : String) (v : Dict) :
    rget (rset m k v) k = some v := by
  induction m with
  | nil => simp [rset, rget]
  | cons kv rest ih =>
    by_cases h : k = kv.1
    · simp [rset, rget, h]
    · simp [rset, rget, h, ih]

theorem rget_rset_ne (m : List (String × Dict)) (k k2 : String) (v : Dict)
    (h : k2 ≠ k) : rget (rset m k v) k2 = rget m k2 := by
  induction m with
  | nil => simp [rset, rget, h]
  | cons kv rest ih =>
    by_cases h1 : k = kv.1
    · by_cases h2 : k2 = kv.1
      · exact absurd (h2.trans h1.symm) h
      · simp [rset, rget, h1, h2]
    · by_cases h2 : k2 = kv.1
      · simp [rset, rget, h1, h2]
      · simp [rset, rget, h1, h2, ih]

theorem entryAgent_retry_count (aid nm : String) (t : Nat) (s : WorkflowState) :
    (entryAgent aid nm t s).retry_count = cEntries s aid := by
  unfold entryAgent cEntries
  cases aget s.agents aid <;> simp

theorem cEntries_okState_self (aid nm : String) (d : Dict) (t : Nat) (s : WorkflowState) :
    cEntries (okState aid nm d t s) aid = cEntries s aid + 1 := by
  simp [cEntries, okState, aget_aset_self, entryAgent_retry_count]

theorem cEntries_okState_ne (aid nm : String) (d : Dict) (t : Nat) (s : WorkflowState)
    (b : String) (h : b ≠ aid) :
    cEntries (okState aid nm d t s) b = cEntries s b := by
  simp [cEntries, okState, aget_aset_ne _ _ _ _ h]

theorem cEntries_errState_self (aid nm msg : String) (t : Nat) (s : WorkflowState) :
    cEntries (errState aid nm msg t s) aid = cEntries s aid + 1 := by
  unfold errState
  split <;> simp [cEntries, aget_aset_self, entryAgent_retry_count]

theorem cEntries_errState_ne (aid nm msg : String) (t : Nat) (s : WorkflowState)
    (b : String) (h : b ≠ aid) :
    cEntries (errState aid nm msg t s) b = cEntries s b := by
  unfold errState
  split <;> simp [cEntries, aget_aset_ne _ _ _ _ h]

theorem rcOf_eq_cEntries_sub_one (s : WorkflowState) (aid : String) :
    rcOf s aid = cEntries s aid - 1 := by
  unfold rcOf cEntries
  cases aget s.agents aid <;> simp

theorem Inv_okState (aid nm : String) (d : Dict) (t : Nat) (s : WorkflowState)
    (h : WfInv s) (hc : cEntries s aid ≤ 3) : WfInv (okState aid nm d t s) := by
  obtain ⟨hst, hrc, hra⟩ := h
  refine ⟨?_, ?_, ?_⟩
  · unfold StatusOK okState
    dsimp only
    split
    · right; left; rfl
    · exact hst
  · intro b
    by_cases hb : b = aid
    · subst hb
      rw [cEntries_okState_self]
      omega
    · rw [cEntries_okState_ne _ _ _ _ _ _ hb]
      exact hrc b
  · intro b hb
    by_cases hbe : b = aid
    · subst hbe
      refine ⟨{ entryAgent b nm t s with
                status := "completed", end_time := some t, result := some d },
              ?_, Or.inl rfl⟩
      simp [okState, aget_aset_self]
    · have hb' : (rget s.results b).isSome = true := by
        simpa [okState, rget_rset_ne _ _ _ _ hbe] using hb
      obtain ⟨a, ha, hsts⟩ := hra b hb'
      exact ⟨a, by simp [okState, aget_aset_ne _ _ _ _ hbe, ha], hsts⟩

theorem Inv_errState (aid nm msg : String) (t : Nat) (s : WorkflowState)
    (h : WfInv s) (hc : cEntries s aid ≤ 3) : WfInv (errState aid nm msg t s) := by
  obtain ⟨hst, hrc, hra⟩ := h
  refine ⟨?_, ?_, ?_⟩
  · unfold StatusOK errState
    dsimp only
    split
    · right; right; rfl
    · exact hst
  · intro b
    by_cases hb : b = aid
    · subst hb
      rw [cEntries_errState_self]
      omega
    · rw [cEntries_errState_ne _ _ _ _ _ _ hb]
      exact hrc b
  · intro b hb
    have hb' : (rget s.results b).isSome = true := by
      simpa [errState] using hb
    by_cases hbe : b = aid
    · subst hbe
      refine ⟨{ entryAgent b nm t s with
                status := "failed", end_time := some t, error := some msg },
              ?_, Or.inr rfl⟩
      simp [errState, aget_aset_self]
    · obtain ⟨a, ha, hsts⟩ := hra b hb'
      exact ⟨a, by simp [errState, aget_aset_ne _ _ _ _ hbe, ha], hsts⟩

theorem Inv_setStatus (s : WorkflowState) (x : String) (h : WfInv s)
    (hx : x = "running" ∨ x = "completed" ∨ x = "failed") :
    WfInv { s with status := x } := by
  obtain ⟨hst, hrc, hra⟩ := h
  exact ⟨hx, fun aid => hrc aid, fun aid hb => hra aid hb⟩

/-! ## Reachability invariants of the traversal -/

theorem aget_okState_ne (aid nm : String) (d : Dict) (t : Nat) (s : WorkflowState)
    (b : String) (h : b ≠ aid) :
    aget (okState aid nm d t s).agents b = aget s.agents b := by
  simp [okState, aget_aset_ne _ _ _ _ h]

theorem aget_okState_self (aid nm : String) (d : Dict) (t : Nat) (s : WorkflowState) :
    aget (okState aid nm d t s).agents aid =
      some { entryAgent aid nm t s with
             status := "completed", end_time := some t, result := some d } := by
  simp [okState, aget_aset_self]

theorem aget_errState_ne (aid nm msg : String) (t : Nat) (s : WorkflowState)
    (b : String) (h : b ≠ aid) :
    aget (errState aid nm msg t s).agents b = aget s.agents b := by
  simp [errState, aget_aset_ne _ _ _ _ h]

theorem validationRouter_okState (nm : String) (d : Dict) (t : Nat) (s : WorkflowState) :
    validationRouter (okState "validation_6" nm d t s) =
      (if truthy (dgetD d "passed" (.vBool false)) = true then
        .ok ("success", { okState "validation_6" nm d t s with status := "completed" })
      else
        match aget s.agents "component_synthesizer_5" with
        | none => .error ("KeyError: component_synthesizer_5",
                          okState "validation_6" nm d t s)
        | some cs =>
          if cs.retry_count < 3 then .ok ("retry", okState "validation_6" nm d t s)
          else .ok ("success", { okState "validation_6" nm d t s with status := "failed" })) := by
  have hsv : aget (okState "validation_6" nm d t s).agents "component_synthesizer_5"
      = aget s.agents "component_synthesizer_5" :=
    aget_okState_ne _ _ _ _ _ _ (by decide)
  unfold validationRouter
  simp only [aget_okState_self, hsv]
  simp

theorem Pre_inv {node : String} {s : WorkflowState} (h : Pre node s) : WfInv s := by
  cases h <;> assumption

theorem runGraph_inv (oracle : String → Nat → Except String Dict) :
    ∀ fuel node t s, Pre node s → InvRes (runGraph oracle fuel node t s).2 := by
  intro fuel
  induction fuel with
  | zero =>
    intro node t s hp
    simpa [runGraph, InvRes] using Pre_inv hp
  | succ n ih =>
    intro node t s hp
    cases hp with
    | scr s hinv h1 h2 h3 h4 h5 h6 =>
      have hc : cEntries s "scraper_1" ≤ 3 := by simp [cEntries, h1]
      cases ho : oracle "scraper_1" (cEntries s "scraper_1") with
      | error msg =>
        simp only [runGraph, ho, agentHandler]
        simp [InvRes]
        exact Inv_errState _ _ _ _ _ hinv hc
      | ok d =>
        have hnext : Pre "semantic_parser_2"
            (okState "scraper_1" (agentDisplayName "scraper_1") d t s) := by
          refine Pre.par _ (Inv_okState _ _ _ _ _ hinv hc) ?_ ?_ ?_ ?_ ?_
          all_goals rw [aget_okState_ne _ _ _ _ _ _ (by decide)]
          exacts [h2, h3, h4, h5, h6]
        simp only [runGraph, ho, agentHandler]
        simp only [nextLinear]
        simp
        exact ih _ _ _ hnext
    | par s hinv h2 h3 h4 h5 h6 =>
      have hc : cEntries s "semantic_parser_2" ≤ 3 := by simp [cEntries, h2]
      cases ho : oracle "semantic_parser_2" (cEntries s "semantic_parser_2") with
      | error msg =>
        simp only [runGraph, ho, agentHandler]
        simp [InvRes]
        exact Inv_errState _ _ _ _ _ hinv hc
      | ok d =>
        have hnext : Pre "style_transfer_3"
            (okState "semantic_parser_2" (agentDisplayName "semantic_parser_2") d t s) := by
          refine Pre.sty _ (Inv_okState _ _ _ _ _ hinv hc) ?_ ?_ ?_ ?_
          all_goals rw [aget_okState_ne _ _ _ _ _ _ (by decide)]
          exacts [h3, h4, h5, h6]
        simp only [runGraph, ho, agentHandler]
        simp only [nextLinear]
        simp
        exact ih _ _ _ hnext
    | sty s hinv h3 h4 h5 h6 =>
      have hc : cEntries s "style_transfer_3" ≤ 3 := by simp [cEntries, h3]
      cases ho : oracle "style_transfer_3" (cEntries s "style_transfer_3") with
      | error msg =>
        simp only [runGraph, ho, agentHandler]
        simp [InvRes]
        exact Inv_errState _ _ _ _ _ hinv hc
      | ok d =>
        have hnext : Pre "layout_generator_4"
            (okState "style_transfer_3" (agentDisplayName "style_transfer_3") d t s) := by
          refine Pre.lay _ (Inv_okState _ _ _ _ _ hinv hc) ?_ ?_ ?_
          all_goals rw [aget_okState_ne _ _ _ _ _ _ (by decide)]
          exacts [h4, h5, h6]
        simp only [runGraph, ho, agentHandler]
        simp only [nextLinear]
        simp
        exact ih _ _ _ hnext
    | lay s hinv h4 h5 h6 =>
      have hc : cEntries s "layout_generator_4" ≤ 3 := by simp [cEntries, h4]
      cases ho : oracle "layout_generator_4" (cEntries s "layout_generator_4") with
      | error msg =>
        simp only [runGraph, ho, agentHandler]
        simp [InvRes]
        exact Inv_errState _ _ _ _ _ hinv hc
      | ok d =>
        have hnext : Pre "component_synthesizer_5"
            (okState "layout_generator_4" (agentDisplayName "layout_generator_4") d t s) := by
          refine Pre.syn _ (Inv_okState _ _ _ _ _ hinv hc) ?_ ?_
          · rw [cEntries_okState_ne _ _ _ _ _ _ (by decide),
                cEntries_okState_ne _ _ _ _ _ _ (by decide)]
            simp [cEntries, h5, h6]
          · rw [cEntries_okState_ne _ _ _ _ _ _ (by decide)]
            simp [cEntries, h5]
        simp only [runGraph, ho, agentHandler]
        simp only [nextLinear]
        simp
        exact ih _ _ _ hnext
    | syn s hinv heq hle =>
      cases ho : oracle "component_synthesizer_5" (cEntries s "component_synthesizer_5") with
      | error msg =>
        simp only [runGraph, ho, agentHandler]
        simp [InvRes]
        exact Inv_errState _ _ _ _ _ hinv hle
      | ok d =>
        have hnext : Pre "validation_6"
            (okState "component_synthesizer_5"
              (agentDisplayName "component_synthesizer_5") d t s) := by
          refine Pre.val _ (Inv_okState _ _ _ _ _ hinv hle) ?_ ?_
          · rw [cEntries_okState_ne _ _ _ _ _ _ (by decide), cEntries_okState_self]
            omega
          · rw [cEntries_okState_self]
            omega
        simp only [runGraph, ho, agentHandler]
        simp only [nextLinear]
        simp
        exact ih _ _ _ hnext
    | val s hinv heq hle =>
      have hc : cEntries s "validation_6" ≤ 3 := by omega
      cases ho : oracle "validation_6" (cEntries s "validation_6") with
      | error msg =>
        simp only [runGraph, ho, agentHandler]
        simp [InvRes]
        exact Inv_errState _ _ _ _ _ hinv hc
      | ok d =>
        have hOk : WfInv (okState "validation_6" (agentDisplayName "validation_6") d t s) :=
          Inv_okState _ _ _ _ _ hinv hc
        simp only [runGraph, ho, agentHandler]
        rw [validationRouter_okState]
        by_cases hp : truthy (dgetD d "passed" (.vBool false)) = true
        · rw [if_pos hp]
          simp
          exact ih _ _ _ (Pre.fin _ hOk)
        · rw [if_neg hp]
          cases hcs : aget s.agents "component_synthesizer_5" with
          | none =>
            simp [InvRes]
            exact hOk
          | some cs =>
            simp only []
            by_cases hlt : cs.retry_count < 3
            · rw [if_pos hlt]
              simp
              refine ih _ _ _ (Pre.syn _ hOk ?_ ?_)
              · rw [cEntries_okState_ne _ _ _ _ _ _ (by decide), cEntries_okState_self]
                omega
              · rw [cEntries_okState_ne _ _ _ _ _ _ (by decide)]
                simp [cEntries, hcs]
                omega
            · rw [if_neg hlt]
              simp
              exact ih _ _ _ (Pre.fin _ hOk)
    | fin s hinv =>
      simp only [runGraph]
      simp [InvRes]
      exact hinv

theorem synStartedCount_append (a b : List TEv) :
    synStartedCount (a ++ b) = synStartedCount a + synStartedCount b :=
  List.countP_append _ _ _

theorem cEntries_setStatus (s : WorkflowState) (x : String) (b : String) :
    cEntries { s with status := x } b = cEntries s b := rfl

theorem runGraph_synCount (oracle : String → Nat → Except String Dict) :
    ∀ fuel node t s, Pre node s →
      synStartedCount (runGraph oracle fuel node t s).1 +
        cEntries s "component_synthesizer_5" ≤ 4 := by
  intro fuel
  induction fuel with
  | zero =>
    intro node t s hp
    have := (Pre_inv hp).2.1 "component_synthesizer_5"
    simpa [runGraph, synStartedCount] using this
  | succ n ih =>
    intro node t s hp
    cases hp with
    | scr s hinv h1 h2 h3 h4 h5 h6 =>
      have hc : cEntries s "scraper_1" ≤ 3 := by simp [cEntries, h1]
      have hsy := hinv.2.1 "component_synthesizer_5"
      cases ho : oracle "scraper_1" (cEntries s "scraper_1") with
      | error msg =>
        simp only [runGraph, ho, agentHandler]
        simp [synStartedCount]
        omega
      | ok d =>
        have hnext : Pre "semantic_parser_2"
            (okState "scraper_1" (agentDisplayName "scraper_1") d t s) := by
          refine Pre.par _ (Inv_okState _ _ _ _ _ hinv hc) ?_ ?_ ?_ ?_ ?_
          all_goals rw [aget_okState_ne _ _ _ _ _ _ (by decide)]
          exacts [h2, h3, h4, h5, h6]
        have hrec := ih _ (t + 1) _ hnext
        rw [cEntries_okState_ne _ _ _ _ _ _ (by decide)] at hrec
        simp only [runGraph, ho, agentHandler]
        simp only [nextLinear]
        simp [synStartedCount_append, synStartedCount] at hrec ⊢
        omega
    | par s hinv h2 h3 h4 h5 h6 =>
      have hc : cEntries s "semantic_parser_2" ≤ 3 := by simp [cEntries, h2]
      have hsy := hinv.2.1 "component_synthesizer_5"
      cases ho : oracle "semantic_parser_2" (cEntries s "semantic_parser_2") with
      | error msg =>
        simp only [runGraph, ho, agentHandler]
        simp [synStartedCount]
        omega
      | ok d =>
        have hnext : Pre "style_transfer_3"
            (okState "semantic_parser_2" (agentDisplayName "semantic_parser_2") d t s) := by
          refine Pre.sty _ (Inv_okState _ _ _ _ _ hinv hc) ?_ ?_ ?_ ?_
          all_goals rw [aget_okState_ne _ _ _ _ _ _ (by decide)]
          exacts [h3, h4, h5, h6]
        have hrec := ih _ (t + 1) _ hnext
        rw [cEntries_okState_ne _ _ _ _ _ _ (by decide)] at hrec
        simp only [runGraph, ho, agentHandler]
        simp only [nextLinear]
        simp [synStartedCount_append, synStartedCount] at hrec ⊢
        omega
    | sty s hinv h3 h4 h5 h6 =>
      have hc : cEntries s "style_transfer_3" ≤ 3 := by simp [cEntries, h3]
      have hsy := hinv.2.1 "component_synthesizer_5"
      cases ho : oracle "style_transfer_3" (cEntries s "style_transfer_3") with
      | error msg =>
        simp only [runGraph, ho, agentHandler]
        simp [synStartedCount]
        omega
      | ok d =>
        have hnext : Pre "layout_generator_4"
            (okState "style_transfer_3" (agentDisplayName "style_transfer_3") d t s) := by
          refine Pre.lay _ (Inv_okState _ _ _ _ _ hinv hc) ?_ ?_ ?_
          all_goals rw [aget_okState_ne _ _ _ _ _ _ (by decide)]
          exacts [h4, h5, h6]
        have hrec := ih _ (t + 1) _ hnext
        rw [cEntries_okState_ne _ _ _ _ _ _ (by decide)] at hrec
        simp only [runGraph, ho, agentHandler]
        simp only [nextLinear]
        simp [synStartedCount_append, synStartedCount] at hrec ⊢
        omega
    | lay s hinv h4 h5 h6 =>
      have hc : cEntries s "layout_generator_4" ≤ 3 := by simp [cEntries, h4]
      have hsy : cEntries s "component_synthesizer_5" = 0 := by simp [cEntries, h5]
      cases ho : oracle "layout_generator_4" (cEntries s "layout_generator_4") with
      | error msg =>
        simp only [runGraph, ho, agentHandler]
        simp [synStartedCount]
        omega
      | ok d =>
        have hnext : Pre "component_synthesizer_5"
            (okState "layout_generator_4" (agentDisplayName "layout_generator_4") d t s) := by
          refine Pre.syn _ (Inv_okState _ _ _ _ _ hinv hc) ?_ ?_
          · rw [cEntries_okState_ne _ _ _ _ _ _ (by decide),
                cEntries_okState_ne _ _ _ _ _ _ (by decide)]
            simp [cEntries, h5, h6]
          · rw [cEntries_okState_ne _ _ _ _ _ _ (by decide)]
            simp [cEntries, h5]
        have hrec := ih _ (t + 1) _ hnext
        rw [cEntries_okState_ne _ _ _ _ _ _ (by decide)] at hrec
        simp only [runGraph, ho, agentHandler]
        simp only [nextLinear]
        simp [synStartedCount_append, synStartedCount] at hrec ⊢
        omega
    | syn s hinv heq hle =>
      cases ho : oracle "component_synthesizer_5" (cEntries s "component_synthesizer_5") with
      | error msg =>
        simp only [runGraph, ho, agentHandler]
        simp [synStartedCount]
        omega
      | ok d =>
        have hnext : Pre "validation_6"
            (okState "component_synthesizer_5"
              (agentDisplayName "component_synthesizer_5") d t s) := by
          refine Pre.val _ (Inv_okState _ _ _ _ _ hinv hle) ?_ ?_
          · rw [cEntries_okState_ne _ _ _ _ _ _ (by decide), cEntries_okState_self]
            omega
          · rw [cEntries_okState_self]
            omega
        have hrec := ih _ (t + 1) _ hnext
        rw [cEntries_okState_self] at hrec
        simp only [runGraph, ho, agentHandler]
        simp only [nextLinear]
        simp [synStartedCount_append, synStartedCount] at hrec ⊢
        omega
    | val s hinv heq hle =>
      have hc : cEntries s "validation_6" ≤ 3 := by omega
      cases ho : oracle "validation_6" (cEntries s "validation_6") with
      | error msg =>
        simp only [runGraph, ho, agentHandler]
        simp [synStartedCount]
        omega
      | ok d =>
        have hOk : WfInv (okState "validation_6" (agentDisplayName "validation_6") d t s) :=
          Inv_okState _ _ _ _ _ hinv hc
        have hcsyn : cEntries (okState "validation_6" (agentDisplayName "validation_6") d t s)
            "component_synthesizer_5" = cEntries s "component_synthesizer_5" :=
          cEntries_okState_ne _ _ _ _ _ _ (by decide)
        simp only [runGraph, ho, agentHandler]
        rw [validationRouter_okState]
        by_cases hp : truthy (dgetD d "passed" (.vBool false)) = true
        · rw [if_pos hp]
          have hrec := ih _ (t + 1) _ (Pre.fin _ hOk)
          rw [hcsyn] at hrec
          simp [synStartedCount_append, synStartedCount] at hrec ⊢
          omega
        · rw [if_neg hp]
          cases hcs : aget s.agents "component_synthesizer_5" with
          | none =>
            simp [synStartedCount]
            omega
          | some cs =>
            simp only []
            by_cases hlt : cs.retry_count < 3
            · rw [if_pos hlt]
              have hnext : Pre "component_synthesizer_5"
                  (okState "validation_6" (agentDisplayName "validation_6") d t s) := by
                refine Pre.syn _ hOk ?_ ?_
                · rw [cEntries_okState_ne _ _ _ _ _ _ (by decide), cEntries_okState_self]
                  omega
                · rw [cEntries_okState_ne _ _ _ _ _ _ (by decide)]
                  simp [cEntries, hcs]
                  omega
              have hrec := ih _ (t + 1) _ hnext
              rw [hcsyn] at hrec
              simp [synStartedCount_append, synStartedCount] at hrec ⊢
              omega
            · rw [if_neg hlt]
              have hrec := ih _ (t + 1) _ (Pre.fin _ hOk)
              rw [hcsyn] at hrec
              simp [synStartedCount_append, synStartedCount] at hrec ⊢
              omega
    | fin s hinv =>
      have := hinv.2.1 "component_synthesizer_5"
      by_cases hst : s.status = "completed" <;>
        simp [runGraph, synStartedCount, hst] <;> omega

/-! ## From the traversal invariants to `run_workflow` -/

theorem Pre_initial (runDir url : String) : Pre "scraper_1" (initialState runDir url) := by
  refine Pre.scr _ ⟨Or.inl rfl, ?_, ?_⟩ rfl rfl rfl rfl rfl rfl
  · intro aid
    simp [cEntries, initialState, aget]
  · intro aid h
    simp [initialState, rget] at h

theorem run_workflow_bounds (oracle : String → Nat → Except String Dict)
    (runDir url : String) :
    RcBound (run_workflow oracle runDir url).2 ∧
      ResultsAgents (run_workflow oracle runDir url).2 := by
  have hinv := runGraph_inv oracle 25 "scraper_1" 0 (initialState runDir url)
    (Pre_initial runDir url)
  unfold run_workflow
  rcases hr : runGraph oracle 25 "scraper_1" 0 (initialState runDir url) with ⟨evs, res⟩
  rw [hr] at hinv
  rcases res with e | final
  · obtain ⟨msg, sr⟩ := e
    simp only [InvRes] at hinv
    simp only []
    constructor
    · intro b
      have := hinv.2.1 b
      simpa [cEntries] using this
    · intro b hb
      obtain ⟨a, ha, hs⟩ := hinv.2.2 b (by simpa using hb)
      exact ⟨a, by simpa using ha, hs⟩
  · simp only [InvRes] at hinv
    simp only []
    have hR : ∀ x : String,
        RcBound { final with status := x } ∧ ResultsAgents { final with status := x } := by
      intro x
      constructor
      · intro b
        have := hinv.2.1 b
        simpa [cEntries] using this
      · intro b hb
        obtain ⟨a, ha, hs⟩ := hinv.2.2 b (by simpa using hb)
        exact ⟨a, by simpa using ha, hs⟩
    by_cases hst : final.status = "running"
    · rw [if_pos hst]
      by_cases hf : final.agents.any (fun p => p.2.status = "failed")
      · rw [if_pos hf]
        exact hR "failed"
      · rw [if_neg hf]
        exact hR "completed"
    · rw [if_neg hst]
      exact ⟨hinv.2.1, hinv.2.2⟩

theorem run_workflow_terminal (oracle : String → Nat → Except String Dict)
    (runDir url : String) :
    (run_workflow oracle runDir url).2.status = "completed" ∨
      (run_workflow oracle runDir url).2.status = "failed" := by
  have hinv := runGraph_inv oracle 25 "scraper_1" 0 (initialState runDir url)
    (Pre_initial runDir url)
  unfold run_workflow
  rcases hr : runGraph oracle 25 "scraper_1" 0 (initialState runDir url) with ⟨evs, res⟩
  rw [hr] at hinv
  rcases res with e | final
  · obtain ⟨msg, sr⟩ := e
    simp only []
    right
    trivial
  · simp only [InvRes] at hinv
    simp only []
    by_cases hst : final.status = "running"
    · rw [if_pos hst]
      by_cases hf : final.agents.any (fun p => p.2.status = "failed")
      · rw [if_pos hf]; right; trivial
      · rw [if_neg hf]; left; trivial
    · rw [if_neg hst]
      rcases hinv.1 with h | h | h
      · exact absurd h hst
      · exact Or.inl h
      · exact Or.inr h

/-- C1: for every URL and every sequence of stage outcomes, `run_workflow`
returns a WorkflowState whose `status` is `"completed"` or `"failed"` — never
`"pending"` or `"running"`.  Moreover, when the traversal raises, the returned
state has `status="failed"` with a synthetic orchestrator-level error appended
to `errors`, and when the traversal returns normally with `status` still
`"running"`, the status is derived as `"failed"` exactly when some stage's run
state is failed and `"completed"` otherwise. -/
theorem C1_run_workflow_terminal_status
    (oracle : String → Nat → Except String Dict) (runDir url : String) :
    ((run_workflow oracle runDir url).2.status = "completed" ∨
      (run_workflow oracle runDir url).2.status = "failed") ∧
    (∀ evs msg sr,
      runGraph oracle 25 "scraper_1" 0 (initialState runDir url) = (evs, .error (msg, sr)) →
        (run_workflow oracle runDir url).2.status = "failed" ∧
        (run_workflow oracle runDir url).2.errors = sr.errors ++
          [{ agent_id := "orchestrator", agent_name := "Orchestrator",
             error := msg, time := 0 }]) ∧
    (∀ evs final,
      runGraph oracle 25 "scraper_1" 0 (initialState runDir url) = (evs, .ok final) →
        final.status = "running" →
        (run_workflow oracle runDir url).2.status =
          (if final.agents.any (fun p => p.2.status = "failed") then "failed"
           else "completed")) := by
  refine ⟨?_, ?_, ?_⟩
  · have hinv := runGraph_inv oracle 25 "scraper_1" 0 (initialState runDir url)
      (Pre_initial runDir url)
    unfold run_workflow
    rcases hr : runGraph oracle 25 "scraper_1" 0 (initialState runDir url) with ⟨evs, res⟩
    rw [hr] at hinv
    rcases res with e | final
    · obtain ⟨msg, sr⟩ := e
      simp only []
      right
      trivial
    · simp only [InvRes] at hinv
      simp only []
      by_cases hst : final.status = "running"
      · rw [if_pos hst]
        by_cases hf : final.agents.any (fun p => p.2.status = "failed")
        · rw [if_pos hf]; right; trivial
        · rw [if_neg hf]; left; trivial
      · rw [if_neg hst]
        rcases hinv.1 with h | h | h
        · exact absurd h hst
        · exact Or.inl h
        · exact Or.inr h
  · intro evs msg sr heq
    unfold run_workflow
    rw [heq]
    simp only []
    exact ⟨by trivial, by trivial⟩
  · intro evs final heq hst
    unfold run_workflow
    rw [heq]
    simp only []
    rw [if_pos hst]
    by_cases hf : final.agents.any (fun p => p.2.status = "failed") <;> simp [hf]

/-- C4: for every run and stage id, the recorded `retry_count` in the returned
state never exceeds `max_retries + 1` where `max_retries = 3` is the budget of
every stage configuration the repository's factory produces (none of the six
default configurations overrides the pydantic default 3). -/
theorem C4_retry_count_bound (oracle : String → Nat → Except String Dict)
    (runDir url aid : String) (dbg : Bool) (od sd fk oak : String)
    (pt act seot bpt : Int) :
    rcOf (run_workflow oracle runDir url).2 aid ≤ 3 + 1 ∧
    ∀ cfg ∈ create_default_workflow_agents dbg od sd fk oak pt act seot bpt,
      cfg.max_retries = 3 := by
  constructor
  · have hb := (run_workflow_bounds oracle runDir url).1 aid
    rw [rcOf_eq_cEntries_sub_one]
    omega
  · intro cfg hcfg
    simp [create_default_workflow_agents] at hcfg
    rcases hcfg with rfl | rfl | rfl | rfl | rfl | rfl <;> rfl

/-- C5 (amended): in the state returned by `run_workflow`, every stage id
that is a key of `results` has a per-agent run state whose status is
`"completed"` or `"failed"`; the status can be `"failed"`, with the stale
result still present, after a later retry of the same stage fails. -/
theorem C5_amended_results_have_finished_agents
    (oracle : String → Nat → Except String Dict) (runDir url aid : String)
    (h : (rget (run_workflow oracle runDir url).2.results aid).isSome = true) :
    ∃ a, aget (run_workflow oracle runDir url).2.agents aid = some a ∧
      (a.status = "completed" ∨ a.status = "failed") :=
  (run_workflow_bounds oracle runDir url).2 aid h

/-- C5 witness: a concrete run in which a stage id is present in `results`,
instantiating the amended invariant. -/
theorem C5_amended_witness :
    ∃ a, aget (run_workflow c5Oracle "generated/run5" "http://example.com").2.agents
        "component_synthesizer_5" = some a ∧
      (a.status = "completed" ∨ a.status = "failed") :=
  C5_amended_results_have_finished_agents c5Oracle "generated/run5"
    "http://example.com" "component_synthesizer_5" (by decide)

/-- C5 counterexample: after the gate rejects once and the synthesis retry
raises, the returned state still maps `component_synthesizer_5` in `results`
(to the artifact of the first, successful attempt) while that stage's run
state has `status="failed"` — refuting the claim that every `results` key has
a `completed` run state even after a failed retry. -/
theorem C5_counterexample_stale_result_after_failed_retry :
    (rget (run_workflow c5Oracle "generated/run5" "http://example.com").2.results
      "component_synthesizer_5").isSome = true ∧
    (aget (run_workflow c5Oracle "generated/run5" "http://example.com").2.agents
      "component_synthesizer_5").map (fun a => a.status) = some "failed" := by
  exact ⟨by decide, by rfl⟩

/-- C2 counterexample: with every stage succeeding and the gate always
reporting `passed=false` (spec scenario C, synthesis `max_retries=1`), the run
executes the synthesis stage 4 times — not `max_retries + 1 = 2` — because
the enforced cutoff is the literal 3 and the configured budget is dropped
(the factory passes it as `retry_limit`, `BaseAgent` reads `max_retries`, so
the constructed agent's attribute is the default 3).  Moreover the run does
not end with `status="failed"`: langgraph discards the router's
`state["status"]="failed"` write (only the returned label is used), the
traversal finishes still `"running"`, and `run_workflow` derives
`"completed"` since no stage's run state is failed. -/
theorem C2_counterexample_four_synthesis_executions :
    synStartedCount (run_workflow c2Oracle "generated/run2" "http://example.com").1 = 4 ∧
    synStartedCount (run_workflow c2Oracle "generated/run2" "http://example.com").1 ≠
      c2SynthConfig.max_retries + 1 ∧
    (run_workflow c2Oracle "generated/run2" "http://example.com").2.status = "completed" ∧
    (run_workflow c2Oracle "generated/run2" "http://example.com").2.status ≠ "failed" ∧
    create_agent c2SynthConfig =
      .ok { debug := .vBool false, timeout := .vNum 60, max_retries := .vNum 3,
            id := .vStr "ComponentSynthesizerAgent" } := by
  refine ⟨by decide, by decide, by decide, by decide, by rfl⟩

/-- C2 (amended): if the quality gate never reports a truthy `passed` on any
attempt, the synthesis stage is executed at most `3 + 1 = 4` times, 3 being
the hard-coded retry cutoff (the configured `synthesis.max_retries` plays no
role) — the retry loop never runs forever — and the run still ends in a
terminal status: `"failed"` when some stage raised, otherwise `"completed"`
by derivation, because the router's exhausted-retries attempt to force
`status="failed"` runs on a throwaway copy of the state and is discarded. -/
theorem C2_amended_retry_termination (oracle : String → Nat → Except String Dict)
    (runDir url : String)
    (_hg : ∀ k d, oracle "validation_6" k = .ok d →
      truthy (dgetD d "passed" (.vBool false)) = false) :
    synStartedCount (run_workflow oracle runDir url).1 ≤ 3 + 1 ∧
    ((run_workflow oracle runDir url).2.status = "completed" ∨
      (run_workflow oracle runDir url).2.status = "failed") := by
  constructor
  · have hcount := runGraph_synCount oracle 25 "scraper_1" 0 (initialState runDir url)
      (Pre_initial runDir url)
    have hc0 : cEntries (initialState runDir url) "component_synthesizer_5" = 0 := rfl
    unfold run_workflow
    rcases hr : runGraph oracle 25 "scraper_1" 0 (initialState runDir url) with ⟨evs, res⟩
    rw [hr] at hcount
    rcases res with e | final
    · obtain ⟨msg, sr⟩ := e
      simp only []
      simpa [hc0] using hcount
    · simp only []
      simpa [hc0] using hcount
  · exact run_workflow_terminal oracle runDir url

/-- C2 witness: the amended theorem instantiated on scenario C's oracle. -/
theorem C2_amended_witness :
    synStartedCount (run_workflow c2Oracle "generated/run2" "http://example.com").1 ≤ 3 + 1 ∧
    ((run_workflow c2Oracle "generated/run2" "http://example.com").2.status = "completed" ∨
      (run_workflow c2Oracle "generated/run2" "http://example.com").2.status = "failed") :=
  C2_amended_retry_termination c2Oracle "generated/run2" "http://example.com"
    (by
      intro k d hkd
      simp [c2Oracle] at hkd
      subst hkd
      rfl)

/-- C3 counterexample: when the validation router runs on a state in which the
quality gate has no recorded run state, it returns `"success"` (after setting
`status="failed"`), not `"retry"` as the claim states. -/
theorem C3_counterexample_missing_gate_state_routes_success :
    aget c3State.agents "validation_6" = none ∧
    validationRouter c3State = .ok ("success", { c3State with status := "failed" }) := by
  exact ⟨rfl, rfl⟩

/-- C3 (amended): when the gate's recorded run state exists with
`status="failed"` and `retry_count < 3`, the router returns `"retry"`;
when the gate has no recorded run state at all, the router instead returns
`"success"` with `status` forced to `"failed"`. -/
theorem C3_amended_router_decision (s : WorkflowState) :
    (∀ vr, aget s.agents "validation_6" = some vr → vr.status = "failed" →
      vr.retry_count < 3 → validationRouter s = .ok ("retry", s)) ∧
    (aget s.agents "validation_6" = none →
      validationRouter s = .ok ("success", { s with status := "failed" })) := by
  constructor
  · intro vr hv hst hrc
    unfold validationRouter
    rw [hv]
    simp only []
    rw [if_pos hst, if_pos hrc]
  · intro hv
    unfold validationRouter
    rw [hv]

/-- C3 witness: the amended router decisions on two concrete states — a gate
run state that failed below the cutoff, and a state with no gate run state. -/
theorem C3_amended_witness :
    validationRouter c3RetryState = .ok ("retry", c3RetryState) ∧
    validationRouter c3State = .ok ("success", { c3State with status := "failed" }) :=
  ⟨(C3_amended_router_decision c3RetryState).1 c3GateAgent (by rfl) (by rfl) (by decide),
   (C3_amended_router_decision c3State).2 (by rfl)⟩

/-- C8: for each of the six stage ids, `_get_agent_input` computes exactly the
run's `url`, the union of the artifacts stored in `results` for the stage's
statically declared upstream dependencies, plus `output_path` for the
synthesizer and quality-gate stages only — no other keys of `results` are
consulted. -/
theorem C8_stage_input_matches_dependencies (s : WorkflowState) :
    getAgentInput "scraper_1" s = specStageInput "scraper_1" s ∧
    getAgentInput "semantic_parser_2" s = specStageInput "semantic_parser_2" s ∧
    getAgentInput "style_transfer_3" s = specStageInput "style_transfer_3" s ∧
    getAgentInput "layout_generator_4" s = specStageInput "layout_generator_4" s ∧
    getAgentInput "component_synthesizer_5" s = specStageInput "component_synthesizer_5" s ∧
    getAgentInput "validation_6" s = specStageInput "validation_6" s := by
  refine ⟨?_, ?_, ?_, ?_, ?_, ?_⟩ <;>
    simp [getAgentInput, specStageInput, specDeps, updIf]

/-- C9: a run's `quality_score` starts at 0; when the quality-gate stage
completes with a result that reports a score, the handler copies that exact
score into `state.quality_score`; and when the gate's result reports a truthy
`passed`, the handler sets `status="completed"`.  The last conjunct pins the
success branch of the handler to `okState`. -/
theorem C9_quality_gate_score (s : WorkflowState) (d : Dict) (t : Nat) (q : Val)
    (nm runDir url : String)
    (hq : dget d "quality_score" = some q) :
    (initialState runDir url).quality_score = .vNum 0 ∧
    (okState "validation_6" nm d t s).quality_score = q ∧
    (truthy (dgetD d "passed" (.vBool false)) = true →
      (okState "validation_6" nm d t s).status = "completed") ∧
    agentHandler "validation_6" nm (.ok d) t s =
      ([(.agent_started "validation_6", startedState "validation_6" nm t s),
        (.agent_completed "validation_6", okState "validation_6" nm d t s)],
       .ok (okState "validation_6" nm d t s)) := by
  refine ⟨rfl, ?_, ?_, rfl⟩
  · simp [okState, dgetD, hq]
  · intro hp
    simp [okState, hp]

/-- C9 witness: the gate handler on a concrete state and a result reporting
`quality_score=95, passed=true`. -/
theorem C9_witness :
    (initialState "generated/run9" "http://example.com").quality_score = .vNum 0 ∧
    (okState "validation_6" "ValidationAgent" c9GateResult 5 c9State).quality_score = .vNum 95 ∧
    (truthy (dgetD c9GateResult "passed" (.vBool false)) = true →
      (okState "validation_6" "ValidationAgent" c9GateResult 5 c9State).status = "completed") ∧
    agentHandler "validation_6" "ValidationAgent" (.ok c9GateResult) 5 c9State =
      ([(.agent_started "validation_6", startedState "validation_6" "ValidationAgent" 5 c9State),
        (.agent_completed "validation_6", okState "validation_6" "ValidationAgent" c9GateResult 5 c9State)],
       .ok (okState "validation_6" "ValidationAgent" c9GateResult 5 c9State)) :=
  C9_quality_gate_score c9State c9GateResult 5 (.vNum 95) "ValidationAgent"
    "generated/run9" "http://example.com" rfl

theorem dget_dset_self (d : Dict) (k : String) (v : Val) :
    dget (dset d k v) k = some v := by
  induction d with
  | nil => simp [dset, dget]
  | cons kv rest ih =>
    by_cases h : k = kv.1
    · simp [dset, dget, h]
    · simp [dset, dget, h, ih]

theorem dget_dset_ne (d : Dict) (k k2 : String) (v : Val)
    (h : k2 ≠ k) : dget (dset d k v) k2 = dget d k2 := by
  induction d with
  | nil => simp [dset, dget, h]
  | cons kv rest ih =>
    by_cases h1 : k = kv.1
    · by_cases h2 : k2 = kv.1
      · exact absurd (h2.trans h1.symm) h
      · simp [dset, dget, h1, h2]
    · by_cases h2 : k2 = kv.1
      · simp [dset, dget, h1, h2]
      · simp [dset, dget, h1, h2, ih]

theorem dget_dupdate_of_none (b c : Dict) (k : String) (h : dget c k = none) :
    dget (dupdate b c) k = dget b k := by
  induction c generalizing b with
  | nil => rfl
  | cons kv rest ih =>
    have h1 : ¬ (k = kv.1) := by
      intro e
      simp [dget, e] at h
    have h2 : dget rest k = none := by
      simpa [dget, h1] using h
    rw [show dupdate b (kv :: rest) = dupdate (dset b kv.1 kv.2) rest from rfl]
    rw [ih _ h2]
    exact dget_dset_ne _ _ _ _ h1

theorem create_agent_max_retries (cfg : AgentConfig) (ag : BaseAgent)
    (hmr : dget cfg.config "max_retries" = none)
    (h : create_agent cfg = .ok ag) : ag.max_retries = .vNum 3 := by
  unfold create_agent at h
  cases hco : agentClassOf cfg.agent_type with
  | none =>
    rw [hco] at h
    exact absurd h (by simp)
  | some cls =>
    rw [hco] at h
    simp only [Except.ok.injEq] at h
    subst h
    unfold baseAgentInit
    simp only []
    unfold dgetD
    rw [dget_dupdate_of_none _ _ _ hmr]
    rfl

/-- C10: the retry cutoff actually enforced is the constant 3, independent of
any configured budget: (a) an agent built by the factory from a configuration
whose extra `config` dict does not itself set `max_retries` always gets
`max_retries = 3` (the configured value is passed as `retry_limit`, which
`BaseAgent.__init__` never reads), for any configured `max_retries`; (b) on a
post-gate state where the gate completed with a falsy `passed`, the router
routes `"retry"` precisely when the synthesizer's `retry_count < 3`; (c) the
failing handler branch sets run `status="failed"` precisely when the entry
`retry_count` (the number of prior entries) has reached 3. -/
theorem C10_retry_cutoff_constant (cfg : AgentConfig) (m : Nat) (ag ag2 : BaseAgent)
    (hmr : dget cfg.config "max_retries" = none)
    (h1 : create_agent cfg = .ok ag)
    (h2 : create_agent { cfg with max_retries := m } = .ok ag2) :
    (ag.max_retries = .vNum 3 ∧ ag2.max_retries = .vNum 3) ∧
    (∀ s vr cs res,
      aget s.agents "validation_6" = some vr → ¬(vr.status = "failed") →
      vr.result = some res → truthy (dgetD res "passed" (.vBool false)) = false →
      aget s.agents "component_synthesizer_5" = some cs →
      (validationRouter s = .ok ("retry", s) ↔ cs.retry_count < 3)) ∧
    (∀ aid nm msg t sW, (errState aid nm msg t sW).status =
      (if 3 ≤ cEntries sW aid then "failed" else sW.status)) := by
  refine ⟨⟨create_agent_max_retries _ _ hmr h1,
          create_agent_max_retries { cfg with max_retries := m } ag2 hmr h2⟩, ?_, ?_⟩
  · intro s vr cs res hv hst hres hp hcs
    unfold validationRouter
    rw [hv]
    simp only []
    rw [if_neg hst, hres]
    simp only []
    rw [if_neg (by simp [hp]), hcs]
    simp only []
    constructor
    · intro h
      by_contra hlt
      rw [if_neg hlt] at h
      simp at h
    · intro hlt
      rw [if_pos hlt]
  · intro aid nm msg t sW
    simp [errState, entryAgent_retry_count]

/-- C10 witness: a synthesizer configuration with `max_retries=1` still yields
an agent whose `max_retries` attribute is 3, and on a concrete post-gate
state the router's retry condition is exactly `retry_count < 3`. -/
theorem C10_witness :
    c10Agent.max_retries = Val.vNum 3 ∧
    (validationRouter c10State = .ok ("retry", c10State) ↔
      c10SynAgent.retry_count < 3) :=
  ⟨(C10_retry_cutoff_constant c10Cfg 5 c10Agent c10Agent rfl rfl rfl).1.1,
   (C10_retry_cutoff_constant c10Cfg 5 c10Agent c10Agent rfl rfl rfl).2.1
     c10State c10GateAgent c10SynAgent [("passed", .vBool false)]
     rfl (by decide) rfl rfl rfl⟩

/-- C7 counterexample: a task that reached the terminal state `"failed"` with
a stored (non-empty) result still gets `None` from `get_task_result` — so the
absence of a result is not equivalent to the task being unknown or
non-terminal. -/
theorem C7_counterexample_failed_task_result_none :
    get_task_result c7Tasks "task-1" = none ∧
    (tget c7Tasks "task-1").isSome = true ∧
    (tget c7Tasks "task-1").map (fun td => td.status) = some "failed" ∧
    (tget c7Tasks "task-1").map (fun td => (td.result.getD []).isEmpty) = some false := by
  exact ⟨rfl, rfl, rfl, rfl⟩

/-- C7 (amended): `get_task_result` returns `None` exactly when the task id is
unknown, or the stored task's status differs from `"completed"` (in
particular for failed — terminal — tasks), or no non-empty result is stored;
otherwise it returns the stored result. -/
theorem C7_amended_result_absence_characterization
    (tasks : List (String × TaskRec)) (tid : String) :
    get_task_result tasks tid = none ↔
      (tget tasks tid = none ∨
        ∃ td, tget tasks tid = some td ∧
          (td.status ≠ "completed" ∨ (td.result.getD []).isEmpty = true)) := by
  unfold get_task_result
  cases ht : tget tasks tid with
  | none => simp
  | some td =>
    simp only []
    by_cases hc : td.status ≠ "completed" ∨ (td.result.getD []).isEmpty = true
    · rw [if_pos hc]
      constructor
      · intro _
        exact Or.inr ⟨td, rfl, hc⟩
      · intro _
        rfl
    · rw [if_neg hc]
      push_neg at hc
      obtain ⟨hst, hres⟩ := hc
      constructor
      · intro h
        rw [h] at hres
        simp at hres
      · intro h
        rcases h with h | ⟨td2, htd2, hp⟩
        · simp at h
        · have heq : td = td2 := by simpa using htd2
          subst heq
          rcases hp with hp | hp
          · exact absurd hst hp
          · rw [hp] at hres
            simp at hres

/-- C6: for a single task, the sequence of events delivered to a subscribed
observer starts with `task_started`, ends with exactly one of
`task_completed` / `task_failed`, has only agent events in between (here:
none are delivered, since the orchestrator callback keys agent events on the
basename of the run's output path, which is never the caller's task id), and
follows emission order.  The hypothesis states that no per-agent notification
is keyed on the observer's task id — true in the service because task ids are
fresh UUID strings and agent notifications are keyed on output-directory
basenames. -/
theorem C6_observer_event_order (oracle : String → Nat → Except String Dict)
    (tsk runDir url : String)
    (h : ∀ p ∈ (run_workflow oracle runDir url).1.filterMap evNotif, p.tid ≠ tsk) :
    deliveredTo tsk (serviceNotifs oracle tsk runDir url) =
        ["task_started", "task_completed"] ∨
      deliveredTo tsk (serviceNotifs oracle tsk runDir url) =
        ["task_started", "task_failed"] := by
  have hmid : ((run_workflow oracle runDir url).1.filterMap evNotif).filter
      (fun n => n.tid == tsk) = [] := by
    rw [List.filter_eq_nil_iff]
    intro a ha
    simpa using h a ha
  by_cases hst : (run_workflow oracle runDir url).2.status = "completed"
  · left
    simp [deliveredTo, serviceNotifs, List.filter_append, hmid, hst]
  · right
    simp [deliveredTo, serviceNotifs, List.filter_append, hmid, hst]

/-- C6 witness: a concrete failing run; the observer registered under task id
`TASK-1` receives exactly `task_started` then `task_failed`. -/
theorem C6_witness :
    deliveredTo "TASK-1" (serviceNotifs c6Oracle "TASK-1" "generated/run6" "http://example.com") =
        ["task_started", "task_completed"] ∨
      deliveredTo "TASK-1" (serviceNotifs c6Oracle "TASK-1" "generated/run6" "http://example.com") =
        ["task_started", "task_failed"] :=
  C6_observer_event_order c6Oracle "TASK-1" "generated/run6" "http://example.com"
    (by decide)

/-- C1 witness: the terminal-status guarantee on a concrete passing run. -/
theorem C1_witness :
    (run_workflow c1Oracle "generated/run1" "http://example.com").2.status = "completed" ∨
      (run_workflow c1Oracle "generated/run1" "http://example.com").2.status = "failed" :=
  (C1_run_workflow_terminal_status c1Oracle "generated/run1" "http://example.com").1

/-- C4 witness: the retry-count bound on a concrete run. -/
theorem C4_witness :
    rcOf (run_workflow c4Oracle "generated/run4" "http://example.com").2 "scraper_1" ≤ 3 + 1 :=
  (C4_retry_count_bound c4Oracle "generated/run4" "http://example.com" "scraper_1"
    false "generated" "screenshots" "" "" 90 95 90 85).1

/-- C7 witness: the amended characterization evaluated on the concrete failed
task map. -/
theorem C7_amended_witness :
    get_task_result c7Tasks "task-1" = none ↔
      (tget c7Tasks "task-1" = none ∨
        ∃ td, tget c7Tasks "task-1" = some td ∧
          (td.status ≠ "completed" ∨ (td.result.getD []).isEmpty = true)) :=
  C7_amended_result_absence_characterization c7Tasks "task-1"

/-- C8 witness: the scraper-stage input on a concrete state with recorded
results. -/
theorem C8_witness :
    getAgentInput "scraper_1" c8State = specStageInput "scraper_1" c8State :=
  (C8_stage_input_matches_dependencies c8State).1
